import Mathlib

/-!
Verification of the HIT137 Assignment 3 repository (desktop GUI app wrapping
two pretrained vision models) against its natural-language specification.

The development shallowly embeds the parts of the Python source the claims
are about:

* `src/gui/decorators.py` — the four cross-cutting wrappers
  (validate_input, log_operation, cache_result, error_handler).
  A Python callable is modelled as a function returning an
  `Except PyErr result` (a raised exception or a returned value) paired
  with the list of lines it prints.  Timestamps and durations that appear
  in the printed lines are irrelevant to every claim and are omitted from
  the modelled line text.
* `src/models/base_model.py` — the lazy-load lifecycle `_ensure_loaded`.
  The variant-specific `_load_model` call is an external effect and is
  passed in as its outcome (`Option PyErr`: `none` = success).
* `src/models/clothes_segmentation.py` — the `process` post-processing
  pipeline.  The pretrained SegFormer network, the bilinear interpolation
  of its logits, the torch softmax, and the numpy PCG64 palette generator
  are external library calls; they enter the embedding as the fields of a
  `SegNet` record (upsampled logit grid, softmax probability grid,
  palette).  Everything from `argmax` on (lines 192-228 of the source) is
  embedded directly.  The overlay blend is computed by numpy in float32
  (the uint8 arrays are cast to float32, the Python-float scalars 0.45
  and 1 - 0.45 are cast to float32, and each multiply and add rounds its
  exact result to 24 bits of precision, ties to even); the embedding
  models this exactly, with IEEE round-to-nearest-even on rationals
  (`flRound`, 53 bits for the Python double constants, 24 bits for the
  float32 operations — every value involved is positive and lies well
  inside the normal range, so neither overflow, underflow nor signed
  zeros arise), followed by the `uint8` cast (truncation toward zero,
  i.e. floor on non-negative values, mod 256).
-/

attribute [local semireducible] Rat.add Rat.sub Rat.mul

/-- An RGB triple; components are uint8 values 0..255. -/
structure RGB where
  r : ℕ
  g : ℕ
  b : ℕ
deriving DecidableEq

/-- A raster image: height, width, and a pixel function (row, column). -/
structure Img where
  H : ℕ
  W : ℕ
  pix : ℕ → ℕ → RGB

/-- The Python exception kinds raised or caught in the embedded code.
Each carries its message (what `str(e)` yields). -/
inductive PyErr where
  | valueError (msg : String)
  | typeError (msg : String)
  | runtimeError (msg : String)
  | importError (msg : String)
deriving DecidableEq

/-- What `str(e)` produces for an exception: its message. -/
def pyErrStr : PyErr → String
  | .valueError m => m
  | .typeError m => m
  | .runtimeError m => m
  | .importError m => m

/-- A Python runtime value, covering the shapes the decorated methods
receive: None, booleans, integers, strings, lists, string-keyed dicts and
PIL images. -/
inductive PyVal where
  | none
  | bool (b : Bool)
  | int (n : ℤ)
  | str (s : String)
  | list (xs : List PyVal)
  | dict (entries : List (String × PyVal))
  | image (img : Img)

/-- Python truthiness (`bool(v)`): None, False, 0, empty string and empty
collections are falsy; PIL images define neither bool nor len and are
truthy. -/
def truthy : PyVal → Bool
  | .none => false
  | .bool b => b
  | .int n => n != 0
  | .str s => s != ""
  | .list xs => !xs.isEmpty
  | .dict es => !es.isEmpty
  | .image _ => true

/-- The ASCII whitespace characters removed by Python str.strip(). -/
def isPySpace (c : Char) : Bool :=
  c = ' ' || c = '\t' || c = '\n' || c = '\r' || c = '\x0b' || c = '\x0c'

/-- Python `s.strip() == ""`: every character of s is whitespace. -/
def pyStripEmpty (s : String) : Bool := s.data.all isPySpace

/-- The test `isinstance(user_input, str) and user_input.strip() == ""`
from validate_input (decorators.py line 177). -/
def blankStr : PyVal → Bool
  | .str s => pyStripEmpty s
  | _ => false

/-- Python dict membership/subscript for a string-keyed dict literal:
the value stored under key k, if present. -/
def dictLookup (es : List (String × PyVal)) (k : String) : Option PyVal :=
  match es with
  | [] => Option.none
  | (k2, v) :: rest => if k2 = k then some v else dictLookup rest k

/-!  Decorators (src/gui/decorators.py).  A wrapped callable takes its
positional argument list (or, for the generic wrappers, an arbitrary
argument) and yields `Except PyErr β` together with its printed lines. -/

/-- validate_input (decorators.py lines 170-180): when the call has more
than one positional argument, the second one (args[1], the first argument
after self) must be truthy and must not be a string that strips to empty;
otherwise ValueError("Input cannot be empty") is raised before the wrapped
function runs. -/
def validate_input {α : Type} (f : List PyVal → Except PyErr α × List String)
    (args : List PyVal) : Except PyErr α × List String :=
  match args with
  | _ :: u :: _ =>
    if !truthy u || blankStr u then
      (Except.error (PyErr.valueError "Input cannot be empty"), [])
    else f args
  | _ => f args

/-- The line printed when log_operation starts (timestamp omitted). -/
def startLine (name : String) : String := "[LOG] Starting " ++ name

/-- The line printed when log_operation sees the call complete
(duration omitted). -/
def doneLine (name : String) : String := "[LOG] " ++ name ++ " completed"

/-- The line printed when log_operation sees the call fail. -/
def failLine (name : String) (e : PyErr) : String :=
  "[LOG] " ++ name ++ " failed: " ++ pyErrStr e

/-- log_operation (decorators.py lines 183-198): prints a start line, runs
the wrapped function, prints a completion line on success or a failure
line on exception, and re-raises the exception (never suppresses it). -/
def log_operation {α β : Type} (name : String)
    (f : α → Except PyErr β × List String) (a : α) :
    Except PyErr β × List String :=
  match f a with
  | (Except.ok v, log) => (Except.ok v, startLine name :: log ++ [doneLine name])
  | (Except.error e, log) => (Except.error e, startLine name :: log ++ [failLine name e])

/-- The error line printed by error_handler (decorators.py line 230). -/
def errLine (msg : String) (e : PyErr) : String :=
  "[ERROR] " ++ msg ++ ": " ++ pyErrStr e

/-- error_handler (decorators.py lines 222-234): runs the wrapped
function; on success passes its result through, on any exception prints
one error line with the caller-supplied message and returns None instead
of propagating.  The Python return value "result-or-None" is modelled as
`Option β`. -/
def error_handler {α β : Type} (msg : String)
    (f : α → Except PyErr β × List String) (a : α) :
    Except PyErr (Option β) × List String :=
  match f a with
  | (Except.ok v, log) => (Except.ok (some v), log)
  | (Except.error e, log) => (Except.ok Option.none, log ++ [errLine msg e])

/-!  cache_result (decorators.py lines 201-219).  The wrapped function's
arguments enter the cache key only through the string
`str(args) + str(kwargs)`, so a call is modelled by that stringification;
the wrapped function is a function of it.  Python's built-in hash on
strings is seed-randomized per process and is an external primitive, so
the embedding takes the hash as a parameter.  The state carries the cache
dict and a ghost counter of how many times the wrapped function was
actually invoked. -/

/-- The cache key f"{func.__name__}_{hash(str(args) + str(kwargs))}". -/
def cacheKey (fname : String) (h : String → ℤ) (argStr : String) : String :=
  fname ++ "_" ++ toString (h argStr)

/-- Cache dict of one decorated function plus a ghost invocation counter. -/
structure CacheState (α : Type) where
  cache : List (String × α)
  calls : ℕ

/-- One call through the cache_result wrapper: on a key hit return the
stored value without invoking the wrapped function; on a miss invoke it,
store the result under the key, and return it. -/
def cache_result {α : Type} (fname : String) (h : String → ℤ)
    (f : String → α) (st : CacheState α) (argStr : String) :
    α × CacheState α :=
  let key := cacheKey fname h argStr
  match st.cache.lookup key with
  | some v => (v, st)
  | Option.none =>
    let r := f argStr
    (r, ⟨(key, r) :: st.cache, st.calls + 1⟩)

/-!  Lazy-load lifecycle (src/models/base_model.py lines 111-119). -/

/-- The lazy-load state of a model wrapper: the _is_loaded flag and the
recorded _load_time. -/
structure ModelState where
  is_loaded : Bool
  load_time : Option ℚ
deriving DecidableEq

/-- The observable outcome of one _ensure_loaded call: the post-call
state of the object, the exception it propagates if any, and whether the
underlying _load_model routine was invoked during the call. -/
structure EnsureOutcome where
  state : ModelState
  raised : Option PyErr
  invoked : Bool
deriving DecidableEq

/-- _ensure_loaded (base_model.py lines 111-119): if already loaded, do
nothing; otherwise invoke _load_model (outcome passed in as `load`,
`none` meaning success) and, only on success, record the elapsed time and
set the loaded flag.  An exception from _load_model propagates and the
assignments after the call do not run. -/
def ensure_loaded (load : Option PyErr) (elapsed : ℚ) (s : ModelState) :
    EnsureOutcome :=
  if s.is_loaded then ⟨s, Option.none, false⟩
  else
    match load with
    | some e => ⟨s, some e, true⟩
    | Option.none => ⟨⟨true, some elapsed⟩, Option.none, true⟩

/-!  Segmentation post-processing
(src/models/clothes_segmentation.py, process, lines 162-228). -/

/-- The clothing class-id allow-list _clothing_ids_of_interest
(clothes_segmentation.py line 129). -/
def clothingIds : List ℕ := [2, 4, 6, 11, 14, 15]

/-- The exact rational value 45/100 of the literal 0.45 the source binds
to alpha (clothes_segmentation.py line 220).  The spec states the blend
formula over this exact value; the floating-point values the program
actually computes with are derived from it below (alpha64, alphaF,
oneMinusAlphaF). -/
def alphaBlend : ℚ := mkRat 45 100

/-- Greatest k with 2^k ≤ n (n ≥ 1), with explicit fuel so the kernel
can evaluate it; fuel 70 covers every integer below 2^70, far above
every numerator and denominator the blend produces. -/
def log2fuel : ℕ → ℕ → ℕ
  | 0, _ => 0
  | fuel + 1, n => if 2 ≤ n then log2fuel fuel (n / 2) + 1 else 0

/-- The rational 2^z for an integer z (negative exponents via mkRat, so
the kernel can evaluate it). -/
def pow2 (z : ℤ) : ℚ :=
  if 0 ≤ z then ((2 ^ z.toNat : ℕ) : ℚ) else mkRat 1 (2 ^ (-z).toNat)

/-- Round a rational to the nearest integer, ties to even — the IEEE-754
default rounding applied to a scaled significand. -/
def roundEvenInt (q : ℚ) : ℤ :=
  let f := q.floor
  let r := q - (f : ℚ)
  if r < mkRat 1 2 then f
  else if mkRat 1 2 < r then f + 1
  else if f % 2 = 0 then f else f + 1

/-- Round a non-negative rational to the nearest binary floating-point
value with p bits of precision, ties to even: scale q into [2^(p-1), 2^p)
by a power of two, round to an integer significand, and scale back.
With p = 53 this is IEEE double rounding and with p = 24 float32
rounding, for values in the normal range — which covers every quantity
in the embedded blend (all positive, between 2^-2 and 2^9). -/
def flRound (p : ℕ) (q : ℚ) : ℚ :=
  if q ≤ 0 then 0 else
  let z0 : ℤ := (p : ℤ) - 1 - ((log2fuel 70 q.num.toNat : ℤ) - (log2fuel 70 q.den : ℤ))
  let lo : ℚ := ((2 ^ (p - 1) : ℕ) : ℚ)
  let z : ℤ := if q * pow2 z0 < lo then z0 + 1 else z0
  (roundEvenInt (q * pow2 z) : ℚ) * pow2 (-z)

/-- The Python float 0.45: the IEEE double nearest to 45/100,
8106479329266893 * 2^-54. -/
def alpha64 : ℚ := flRound 53 alphaBlend

/-- The Python double 1 - alpha: the exact difference 1 - alpha64 is not
representable in 53 bits, so the subtraction rounds (a tie, going to the
even significand 4953959590107546 * 2^-53). -/
def oneMinusAlpha64 : ℚ := flRound 53 (1 - alpha64)

/-- The float32 numpy multiplies by for the scalar alpha:
15099494 * 2^-25. -/
def alphaF : ℚ := flRound 24 alpha64

/-- The float32 numpy multiplies by for the scalar 1 - alpha:
9227469 * 2^-24. -/
def oneMinusAlphaF : ℚ := flRound 24 oneMinusAlpha64

/-- The external pieces of the segmentation model as the process code
sees them: the number of classes (model.config.num_labels), the upsampled
logit grid produced by interpolating the network output to a target
(height, width) — indexed image, targetH, targetW, row, column, class —
the softmax probability grid over the same indices (torch softmax is an
external library call), and the PCG64-seeded palette (class id to RGB). -/
structure SegNet where
  numLabels : ℕ
  upLogits : Img → ℕ → ℕ → ℕ → ℕ → ℕ → ℚ
  probs : Img → ℕ → ℕ → ℕ → ℕ → ℕ → ℚ
  palette : ℕ → RGB

/-- Index of the first maximum of f over 0..n (numpy/torch argmax keeps
the first index on ties). -/
def argmaxAux (f : ℕ → ℚ) : ℕ → ℕ
  | 0 => 0
  | n + 1 =>
    let b := argmaxAux f n
    if f (n + 1) > f b then n + 1 else b

/-- argmax over class indices 0..C-1. -/
def argmaxClass (C : ℕ) (f : ℕ → ℚ) : ℕ := argmaxAux f (C - 1)

/-- Maximum of f over 0..n. -/
def maxAux (f : ℕ → ℚ) : ℕ → ℚ
  | 0 => f 0
  | n + 1 => if maxAux f n ≤ f (n + 1) then f (n + 1) else maxAux f n

/-- Maximum over class indices 0..C-1 (torch.max over the class dim). -/
def maxClass (C : ℕ) (f : ℕ → ℚ) : ℚ := maxAux f (C - 1)

/-- pred = upsampled.argmax(dim=1)[0]...astype(np.uint8)
(clothes_segmentation.py line 193); the logits were upsampled to
size=image.size[::-1], i.e. the image's (H, W) (lines 185-190). -/
def segPred0 (net : SegNet) (image : Img) (y x : ℕ) : ℕ :=
  argmaxClass net.numLabels (net.upLogits image image.H image.W y x) % 256

/-- confidence = torch.max(softmax(upsampled), dim=0) at a pixel
(clothes_segmentation.py lines 196-197). -/
def segConf (net : SegNet) (image : Img) (y x : ℕ) : ℚ :=
  maxClass net.numLabels (net.probs image image.H image.W y x)

/-- The post-threshold class id: confidence_mask = (confidence >= 0.5);
pred[~confidence_mask] = 0 (clothes_segmentation.py lines 198-201).
The threshold 0.5 is written as the rational mkRat 1 2. -/
def segPred (net : SegNet) (image : Img) (y x : ℕ) : ℕ :=
  if segConf net image y x ≥ mkRat 1 2 then segPred0 net image y x else 0

/-- clothing_mask = np.isin(pred, self._clothing_ids_of_interest)
(clothes_segmentation.py line 204). -/
def segClothing (net : SegNet) (image : Img) (y x : ℕ) : Bool :=
  decide (segPred net image y x ∈ clothingIds)

/-- color_result: a zero canvas that receives palette[pred] exactly on
the clothing mask (clothes_segmentation.py lines 207-215). -/
def segColor (net : SegNet) (image : Img) (y x : ℕ) : RGB :=
  if segClothing net image y x then net.palette (segPred net image y x)
  else ⟨0, 0, 0⟩

/-- One channel of the overlay blend
((1 - alpha) * orig.astype(float32) + alpha * color.astype(float32))
.astype(np.uint8) (clothes_segmentation.py lines 220-224): numpy casts
the uint8 values to float32 (exact, they are below 2^24), casts the
Python-float scalars to float32, performs each multiply and the add in
float32 — each operation rounding its exact result to 24 bits — and the
final uint8 cast truncates toward zero (floor on these non-negative
values) and wraps mod 256. -/
def blendChan (o p : ℕ) : ℕ :=
  (flRound 24 (flRound 24 (oneMinusAlphaF * (o : ℚ))
    + flRound 24 (alphaF * (p : ℚ)))).floor.toNat % 256

/-- Componentwise overlay blend of an original pixel with a color pixel. -/
def blend (o p : RGB) : RGB :=
  ⟨blendChan o.r p.r, blendChan o.g p.g, blendChan o.b p.b⟩

/-- overlay_arr: a copy of the original that receives the blend exactly
on the clothing mask (clothes_segmentation.py lines 218-224). -/
def segOverlayPix (net : SegNet) (image : Img) (y x : ℕ) : RGB :=
  if segClothing net image y x then blend (image.pix y x) (segColor net image y x)
  else image.pix y x

/-- The pair of images process returns (clothes_segmentation.py lines
226-228).  The colored map's dimensions are pred's spatial shape, which
is the upsample target image.size[::-1] = (image.H, image.W); the
overlay's dimensions are those of np.array(image). -/
structure SegOutput where
  overlay : Img
  colored : Img

/-- The segmentation pipeline on a valid PIL image, from the forward
pass's upsampled logits to the returned (overlay, colored map) pair. -/
def segPipelineCore (net : SegNet) (image : Img) : SegOutput :=
  ⟨⟨image.H, image.W, segOverlayPix net image⟩,
   ⟨image.H, image.W, segColor net image⟩⟩

/-- The undecorated body of ClothesSegmentationModel.process
(clothes_segmentation.py lines 162-228): data must be a dict containing
key "image" (else ValueError), whose value must be a PIL image (else
TypeError); then the model is lazily loaded and the pipeline runs.  The
embedding takes the loaded network as the `net` argument; load failure is
covered separately by the `ensure_loaded` model. -/
def segProcessBody (net : SegNet) (d : PyVal) : Except PyErr SegOutput :=
  match d with
  | PyVal.dict es =>
    match dictLookup es "image" with
    | some (PyVal.image img) => Except.ok (segPipelineCore net img)
    | some _ => Except.error (PyErr.typeError "image must be a PIL Image")
    | Option.none =>
      Except.error (PyErr.valueError "Need a dict with key image containing a PIL Image")
  | _ => Except.error (PyErr.valueError "Need a dict with key image containing a PIL Image")

/-- The body lifted to a positional-argument list (self, data, ...), as
the decorators see it. -/
def segBodyOnArgs (net : SegNet) (args : List PyVal) :
    Except PyErr SegOutput × List String :=
  match args with
  | _ :: d :: _ => (segProcessBody net d, [])
  | _ => (Except.error (PyErr.typeError "missing argument"), [])

/-- The decorated process the callers actually invoke:
validate_input(log_operation(error_handler("Clothes segmentation
failed")(body))) applied to (self, data) — the decorator stack of
clothes_segmentation.py lines 159-161, applied bottom-up. -/
def segProcessDecorated (net : SegNet) (selfv d : PyVal) :
    Except PyErr (Option SegOutput) × List String :=
  validate_input
    (log_operation "process"
      (error_handler "Clothes segmentation failed" (segBodyOnArgs net)))
    [selfv, d]

/-- A segmentation input satisfying the documented contract: a dict whose
"image" entry is a PIL image. -/
def validSegInput (d : PyVal) : Prop :=
  ∃ es img, d = PyVal.dict es ∧ dictLookup es "image" = some (PyVal.image img)

/-!  Claim-side (spec-worded) definitions, for comparison with the
source-derived ones. -/

/-- Rounding to the nearest integer, halves up: the floor of q + 1/2.
agrees with Mathlib round (see roundQ_eq_round below). -/
def roundQ (q : ℚ) : ℤ := (q + mkRat 1 2).floor

/-- roundQ is Mathlib's round. -/
theorem roundQ_eq_round (q : ℚ) : roundQ q = round q := by
  rw [round_eq, roundQ]
  have h2 : (mkRat 1 2 : ℚ) = 1 / 2 := by
    rw [Rat.mkRat_eq_div]
    norm_num
  rw [h2]
  rfl

/-- The overlay formula as the spec words it for claim C2:
round((1-0.45)*original + 0.45*palette), clamped to [0, 255]. -/
def claimBlendChan (o p : ℕ) : ℕ :=
  min 255 (max 0 (roundQ ((1 - alphaBlend) * (o : ℚ) + alphaBlend * (p : ℚ)))).toNat

/-- The claim-C2 overlay formula, componentwise. -/
def claimBlend (o p : RGB) : RGB :=
  ⟨claimBlendChan o.r p.r, claimBlendChan o.g p.g, claimBlendChan o.b p.b⟩

/-- The rejection set claim C8 asserts for validate_input: first argument
an empty string, a whitespace-only string, or None. -/
def specC8Rejects (u : PyVal) : Prop :=
  u = PyVal.none ∨ ∃ s, u = PyVal.str s ∧ pyStripEmpty s = true

/-!  Claims about the lazy-load lifecycle. -/

/-- Claim C3: for every model instance, calling _ensure_loaded twice in
sequence invokes the underlying _load_model routine exactly once — the
first call (from a fresh, unloaded state, with the load succeeding)
invokes it and sets is_loaded, and the second call performs no load and
leaves the state unchanged. -/
theorem claim_C3_ensure_loaded_idempotent (s : ModelState) (t1 t2 : ℚ)
    (load2 : Option PyErr) (hfresh : s.is_loaded = false) :
    (ensure_loaded Option.none t1 s).invoked = true ∧
    (ensure_loaded Option.none t1 s).state.is_loaded = true ∧
    (ensure_loaded load2 t2 (ensure_loaded Option.none t1 s).state).invoked = false ∧
    (ensure_loaded load2 t2 (ensure_loaded Option.none t1 s).state).state
      = (ensure_loaded Option.none t1 s).state := by
  simp [ensure_loaded, hfresh]

/-- Witness for claim C3 at a concrete fresh state. -/
theorem claim_C3_witness :
    (ensure_loaded Option.none 1 ⟨false, Option.none⟩).invoked = true ∧
    (ensure_loaded Option.none 1 ⟨false, Option.none⟩).state.is_loaded = true ∧
    (ensure_loaded Option.none 2 (ensure_loaded Option.none 1 ⟨false, Option.none⟩).state).invoked = false ∧
    (ensure_loaded Option.none 2 (ensure_loaded Option.none 1 ⟨false, Option.none⟩).state).state
      = (ensure_loaded Option.none 1 ⟨false, Option.none⟩).state :=
  claim_C3_ensure_loaded_idempotent ⟨false, Option.none⟩ 1 2 Option.none rfl

/-- Claim C10: if _load_model raises, _ensure_loaded propagates the
exception and leaves the lazy-load state unchanged — is_loaded stays
false and load_time stays unset — so a subsequent call attempts the load
again. -/
theorem claim_C10_load_failure_atomic (s : ModelState) (e : PyErr)
    (t1 t2 : ℚ) (load2 : Option PyErr) (hfresh : s.is_loaded = false)
    (htime : s.load_time = Option.none) :
    (ensure_loaded (some e) t1 s).raised = some e ∧
    (ensure_loaded (some e) t1 s).state = s ∧
    (ensure_loaded (some e) t1 s).state.is_loaded = false ∧
    (ensure_loaded (some e) t1 s).state.load_time = Option.none ∧
    (ensure_loaded load2 t2 (ensure_loaded (some e) t1 s).state).invoked = true := by
  cases load2 <;> simp [ensure_loaded, hfresh, htime]

/-- Witness for claim C10 at a concrete fresh state and load error. -/
theorem claim_C10_witness :
    (ensure_loaded (some (PyErr.runtimeError "weights unavailable")) 1 ⟨false, Option.none⟩).raised
      = some (PyErr.runtimeError "weights unavailable") ∧
    (ensure_loaded (some (PyErr.runtimeError "weights unavailable")) 1 ⟨false, Option.none⟩).state
      = ⟨false, Option.none⟩ ∧
    (ensure_loaded (some (PyErr.runtimeError "weights unavailable")) 1 ⟨false, Option.none⟩).state.is_loaded
      = false ∧
    (ensure_loaded (some (PyErr.runtimeError "weights unavailable")) 1 ⟨false, Option.none⟩).state.load_time
      = Option.none ∧
    (ensure_loaded Option.none 2
      (ensure_loaded (some (PyErr.runtimeError "weights unavailable")) 1 ⟨false, Option.none⟩).state).invoked
      = true :=
  claim_C10_load_failure_atomic ⟨false, Option.none⟩
    (PyErr.runtimeError "weights unavailable") 1 2 Option.none rfl rfl

/-!  Claims about the decorators. -/

/-- Claim C7: the error-swallowing wrapper never propagates an exception
from the wrapped function — on any exception it returns None and appends
exactly one error line, which contains the caller-supplied message — and
on success it returns the wrapped function's result unchanged. -/
theorem claim_C7_error_handler_swallows {α β : Type} (msg : String)
    (f : α → Except PyErr β × List String) (a : α) :
    (∀ e2, (error_handler msg f a).1 ≠ Except.error e2) ∧
    (∀ v log, f a = (Except.ok v, log) →
      error_handler msg f a = (Except.ok (some v), log)) ∧
    (∀ e log, f a = (Except.error e, log) →
      error_handler msg f a = (Except.ok Option.none, log ++ [errLine msg e]) ∧
      ∃ pre post, errLine msg e = pre ++ msg ++ post) := by
  refine ⟨?_, ?_, ?_⟩
  · intro e2
    rcases h : f a with ⟨r, log⟩
    rcases r with e | v <;> simp [error_handler, h]
  · intro v log h
    simp [error_handler, h]
  · intro e log h
    refine ⟨by simp [error_handler, h], "[ERROR] ", ": " ++ pyErrStr e, ?_⟩
    simp [errLine, String.append_assoc]

/-- Witness for claim C7 at a concrete failing wrapped function. -/
theorem claim_C7_witness :
    (error_handler "oops"
      (fun _ : ℕ => ((Except.error (PyErr.valueError "bad") : Except PyErr ℕ),
        ([] : List String))) 0).1
      = Except.ok Option.none ∧
    ∃ pre post, errLine "oops" (PyErr.valueError "bad") = pre ++ "oops" ++ post := by
  have h := (claim_C7_error_handler_swallows "oops"
    (fun _ : ℕ => ((Except.error (PyErr.valueError "bad") : Except PyErr ℕ),
      ([] : List String))) 0).2.2
    (PyErr.valueError "bad") [] rfl
  exact ⟨by rw [h.1], h.2⟩

/-- Counterexample to claim C8 as stated: the integer 0 is not an empty
string, a whitespace-only string, or None, yet validate_input rejects it
with ValueError, because the source test `not user_input` (decorators.py
line 177) rejects every falsy Python value. -/
theorem claim_C8_counterexample :
    ¬ specC8Rejects (PyVal.int 0) ∧
    validate_input (fun _ => (Except.ok (PyVal.int 7), ([] : List String)))
      [PyVal.int 1, PyVal.int 0]
      = (Except.error (PyErr.valueError "Input cannot be empty"), []) := by
  constructor
  · rintro (h | ⟨s, h, _⟩) <;> exact PyVal.noConfusion h
  · rfl

/-- Claim C8 (amended): a call through validate_input with at least one
user-supplied argument fails with ValueError("Input cannot be empty") —
the error the spec labels ValidationError — exactly when that first
user-supplied argument is falsy (None, False, zero, empty string, empty
collection) or is a string that strips to empty; for every other first
argument the wrapper passes the call through to the wrapped function
untouched. -/
theorem claim_C8_validate_input_amended {α : Type}
    (f : List PyVal → Except PyErr α × List String)
    (selfv u : PyVal) (rest : List PyVal) :
    (truthy u = false ∨ blankStr u = true →
      validate_input f (selfv :: u :: rest)
        = (Except.error (PyErr.valueError "Input cannot be empty"), [])) ∧
    (truthy u = true → blankStr u = false →
      validate_input f (selfv :: u :: rest) = f (selfv :: u :: rest)) := by
  constructor
  · rintro (h | h) <;> simp [validate_input, h]
  · intro h1 h2
    simp [validate_input, h1, h2]

/-- Witness for the amended claim C8 at a concrete truthy string input. -/
theorem claim_C8_witness :
    validate_input (fun _ => (Except.ok (PyVal.int 3), ([] : List String)))
      [PyVal.int 1, PyVal.str "hi"]
      = (Except.ok (PyVal.int 3), ([] : List String)) :=
  (claim_C8_validate_input_amended
    (fun _ => (Except.ok (PyVal.int 3), ([] : List String)))
    (PyVal.int 1) (PyVal.str "hi") []).2 (by decide) (by decide)

/-!  Claims about the segmentation pipeline. -/

/-- Claim C4: every pixel of the upsampled score grid whose soft-max
confidence — the maximum of the softmax output over classes, i.e. its
value at the arg-max class — is strictly below 0.5 gets effective class
id 0 (background), regardless of the arg-max class, and therefore fails
the allow-list test, is black in the colored map, and is untouched in the
overlay. -/
theorem claim_C4_confidence_threshold (net : SegNet) (image : Img) (y x : ℕ)
    (h : segConf net image y x < mkRat 1 2) :
    segPred net image y x = 0 ∧
    (segPipelineCore net image).colored.pix y x = ⟨0, 0, 0⟩ ∧
    (segPipelineCore net image).overlay.pix y x = image.pix y x := by
  have hn : ¬ (mkRat 1 2 : ℚ) ≤ segConf net image y x := not_le.mpr h
  have hp : segPred net image y x = 0 := by
    unfold segPred
    exact if_neg hn
  have hc : segClothing net image y x = false := by
    simp [segClothing, hp, clothingIds]
  exact ⟨hp, by simp [segPipelineCore, segColor, hc],
    by simp [segPipelineCore, segOverlayPix, hc]⟩

/-- A concrete network for the claim C4 witness: one class, all softmax
probabilities 0, so the confidence at every pixel is below 0.5. -/
def netC4 : SegNet :=
  ⟨1, fun _ _ _ _ _ _ => 0, fun _ _ _ _ _ _ => 0, fun _ => ⟨7, 7, 7⟩⟩

/-- A concrete 1-by-1 input image for the claim C4 witness. -/
def imgC4 : Img := ⟨1, 1, fun _ _ => ⟨5, 5, 5⟩⟩

/-- Witness for claim C4 at a concrete low-confidence pixel. -/
theorem claim_C4_witness :
    segPred netC4 imgC4 0 0 = 0 ∧
    (segPipelineCore netC4 imgC4).colored.pix 0 0 = ⟨0, 0, 0⟩ ∧
    (segPipelineCore netC4 imgC4).overlay.pix 0 0 = imgC4.pix 0 0 :=
  claim_C4_confidence_threshold netC4 imgC4 0 0 (by decide)

/-- Claim C5: a pixel whose post-threshold class id is outside the
allow-list {2, 4, 6, 11, 14, 15} is exactly black (0,0,0) in the colored
map, and a pixel whose class id is in the allow-list receives the palette
color of its class. -/
theorem claim_C5_allowlist_coloring (net : SegNet) (image : Img) (y x : ℕ) :
    (segPred net image y x ∉ clothingIds →
      (segPipelineCore net image).colored.pix y x = ⟨0, 0, 0⟩) ∧
    (segPred net image y x ∈ clothingIds →
      (segPipelineCore net image).colored.pix y x
        = net.palette (segPred net image y x)) := by
  constructor
  · intro h
    simp [segPipelineCore, segColor, segClothing, h]
  · intro h
    simp [segPipelineCore, segColor, segClothing, h]

/-- A concrete network for the claim C5 witness: the arg-max class is 0
with full confidence, which is outside the allow-list. -/
def netC5 : SegNet :=
  ⟨1, fun _ _ _ _ _ _ => 0, fun _ _ _ _ _ _ => 1, fun _ => ⟨9, 9, 9⟩⟩

/-- A concrete 1-by-1 input image for the claim C5 witness. -/
def imgC5 : Img := ⟨1, 1, fun _ _ => ⟨5, 5, 5⟩⟩

/-- Witness for claim C5 at a concrete non-clothing pixel. -/
theorem claim_C5_witness :
    (segPipelineCore netC5 imgC5).colored.pix 0 0 = ⟨0, 0, 0⟩ :=
  (claim_C5_allowlist_coloring netC5 imgC5 0 0).1 (by decide)

/-- Claim C6: both outputs of the segmentation process — the overlay and
the colored class map — have exactly the input image's height and width:
the colored map's shape comes from pred's shape, which comes from the
upsample target image.size[::-1], and the overlay's from the original
array. -/
theorem claim_C6_output_dimensions (net : SegNet) (image : Img) :
    (segPipelineCore net image).overlay.H = image.H ∧
    (segPipelineCore net image).overlay.W = image.W ∧
    (segPipelineCore net image).colored.H = image.H ∧
    (segPipelineCore net image).colored.W = image.W :=
  ⟨rfl, rfl, rfl, rfl⟩

/-- The IEEE double 0.45 and the float32 scalars the blend multiplies
by, pinned to their exact dyadic values: alpha64 = 8106479329266893/2^54,
the double 1-0.45 rounds (a tie, to even) to 4953959590107546/2^53,
alphaF = 15099494/2^25 = 0.449999988..., and oneMinusAlphaF =
9227469/2^24 = 0.550000011... -/
theorem blend_scalar_values :
    alpha64 = mkRat 8106479329266893 18014398509481984 ∧
    oneMinusAlpha64 = mkRat 4953959590107546 9007199254740992 ∧
    alphaF = mkRat 15099494 33554432 ∧
    oneMinusAlphaF = mkRat 9227469 16777216 := by
  refine ⟨by decide, by decide, by decide, by decide⟩

set_option maxRecDepth 100000 in
/-- The float32 blend can drop below the exact rational blend across an
integer boundary: at original 14 and palette 254 the exact value is
0.55 * 14 + 0.45 * 254 = 122 exactly, but the float32 products round to
16148071 * 2^-21 and 14981529 * 2^-17, whose float32 sum rounds to
15990783 * 2^-17 = 121.99999237..., so the uint8 cast yields 121.  This
is why the blend must be modelled in float32 and not in exact
arithmetic. -/
theorem blendChan_below_exact_floor :
    blendChan 14 254 = 121 ∧
    ((1 - alphaBlend) * (14 : ℚ) + alphaBlend * (254 : ℚ)).floor = 122 := by
  refine ⟨by decide, by decide⟩

/-- A concrete network for claim C2: the arg-max class is the clothing
class 4 with full confidence, and the palette maps every class to black
(a value the PCG64 generator can produce, since it draws uint8 components
from [0, 255)). -/
def netC2 : SegNet :=
  ⟨5, fun _ _ _ _ _ c => if c = 4 then 1 else 0,
   fun _ _ _ _ _ _ => 1, fun _ => ⟨0, 0, 0⟩⟩

/-- A concrete 1-by-1 input image for claim C2, with pixel value (1,1,1). -/
def imgC2 : Img := ⟨1, 1, fun _ _ => ⟨1, 1, 1⟩⟩

set_option maxRecDepth 100000 in
/-- Counterexample to claim C2 as stated: at a clothing pixel with
original value 1 and palette value 0, the program computes the blend in
float32 — fl32(1 - 0.45) * 1 + fl32(0.45) * 0 = 9227469 * 2^-24 =
0.550000011..., which the uint8 cast truncates to 0 — while the claim's
formula round(0.55 * 1 + 0.45 * 0) = round(0.55) = 1.  So the overlay
pixel is (0,0,0), not the (1,1,1) the claim requires. -/
theorem claim_C2_counterexample :
    segClothing netC2 imgC2 0 0 = true ∧
    (segPipelineCore netC2 imgC2).overlay.pix 0 0 = ⟨0, 0, 0⟩ ∧
    claimBlend (imgC2.pix 0 0) (netC2.palette (segPred netC2 imgC2 0 0)) = ⟨1, 1, 1⟩ := by
  refine ⟨by decide, by decide, by decide⟩

/-- Claim C2 (amended): at every clothing pixel each RGB component of the
overlay equals the uint8 truncation (floor, mod 256) of the
float32-evaluated blend (1-0.45)*original + 0.45*palette[class] — numpy
computes the blend in float32 and the cast truncates rather than rounds —
and every non-clothing pixel of the overlay is the untouched original.
The operands are bytes, so the float32 value lies in [0, 255.00001) and
the cast never clamps and the mod never wraps. -/
theorem claim_C2_overlay_blend_amended (net : SegNet) (image : Img) (y x : ℕ) :
    (segClothing net image y x = true →
      (segPipelineCore net image).overlay.pix y x =
        ⟨(flRound 24 (flRound 24 (oneMinusAlphaF * (((image.pix y x).r : ℕ) : ℚ))
            + flRound 24 (alphaF * (((net.palette (segPred net image y x)).r : ℕ) : ℚ)))).floor.toNat % 256,
         (flRound 24 (flRound 24 (oneMinusAlphaF * (((image.pix y x).g : ℕ) : ℚ))
            + flRound 24 (alphaF * (((net.palette (segPred net image y x)).g : ℕ) : ℚ)))).floor.toNat % 256,
         (flRound 24 (flRound 24 (oneMinusAlphaF * (((image.pix y x).b : ℕ) : ℚ))
            + flRound 24 (alphaF * (((net.palette (segPred net image y x)).b : ℕ) : ℚ)))).floor.toNat % 256⟩) ∧
    (segClothing net image y x = false →
      (segPipelineCore net image).overlay.pix y x = image.pix y x) := by
  constructor
  · intro h
    simp [segPipelineCore, segOverlayPix, segColor, h, blend, blendChan]
  · intro h
    simp [segPipelineCore, segOverlayPix, h]

/-- Witness for the amended claim C2 at a concrete clothing pixel. -/
theorem claim_C2_witness :
    (segPipelineCore netC2 imgC2).overlay.pix 0 0 =
      ⟨(flRound 24 (flRound 24 (oneMinusAlphaF * (((imgC2.pix 0 0).r : ℕ) : ℚ))
          + flRound 24 (alphaF * (((netC2.palette (segPred netC2 imgC2 0 0)).r : ℕ) : ℚ)))).floor.toNat % 256,
       (flRound 24 (flRound 24 (oneMinusAlphaF * (((imgC2.pix 0 0).g : ℕ) : ℚ))
          + flRound 24 (alphaF * (((netC2.palette (segPred netC2 imgC2 0 0)).g : ℕ) : ℚ)))).floor.toNat % 256,
       (flRound 24 (flRound 24 (oneMinusAlphaF * (((imgC2.pix 0 0).b : ℕ) : ℚ))
          + flRound 24 (alphaF * (((netC2.palette (segPred netC2 imgC2 0 0)).b : ℕ) : ℚ)))).floor.toNat % 256⟩ :=
  (claim_C2_overlay_blend_amended netC2 imgC2 0 0).1 (by decide)

/-- A concrete (trivial) loaded network for claim C1. -/
def netC1 : SegNet :=
  ⟨1, fun _ _ _ _ _ _ => 0, fun _ _ _ _ _ _ => 0, fun _ => ⟨0, 0, 0⟩⟩

/-- Counterexample to claim C1 as stated: the input {"mask": 1} is a
mapping missing the "image" entry, so it violates the segmentation
model's input contract, yet the decorated process does not fail at all —
it returns None normally (Except.ok), because the error_handler decorator
sits directly on the model method and swallows the ValueError the body
raises.  No exception of any kind, let alone an InvalidInputError (a
class that does not exist anywhere in the repository), reaches the
caller. -/
theorem claim_C1_counterexample :
    (segProcessDecorated netC1 (PyVal.int 1)
      (PyVal.dict [("mask", PyVal.int 1)])).1 = Except.ok Option.none := by
  rfl

/-- Claim C1 (amended): on every input violating the segmentation input
contract, the undecorated process body raises a built-in ValueError or
TypeError (never an InvalidInputError, which the repository does not
define), and the decorated process never propagates it: if the input is
truthy and not a blank string the call returns None normally (the
error_handler decorator on the model method swallows the error before it
can reach the UI boundary), and otherwise validate_input rejects the call
with ValueError("Input cannot be empty"). -/
theorem claim_C1_invalid_input_swallowed (net : SegNet) (selfv d : PyVal)
    (hinv : ¬ validSegInput d) :
    (∃ e, segProcessBody net d = Except.error e) ∧
    (truthy d = true → blankStr d = false →
      (segProcessDecorated net selfv d).1 = Except.ok Option.none) ∧
    (truthy d = false ∨ blankStr d = true →
      (segProcessDecorated net selfv d).1
        = Except.error (PyErr.valueError "Input cannot be empty")) := by
  have hbody : ∃ e, segProcessBody net d = Except.error e := by
    cases d with
    | dict es =>
      cases hlk : dictLookup es "image" with
      | none =>
        exact ⟨PyErr.valueError "Need a dict with key image containing a PIL Image",
          by simp [segProcessBody, hlk]⟩
      | some v =>
        cases v with
        | image img => exact absurd ⟨es, img, rfl, hlk⟩ hinv
        | none =>
          exact ⟨PyErr.typeError "image must be a PIL Image",
            by simp [segProcessBody, hlk]⟩
        | bool b =>
          exact ⟨PyErr.typeError "image must be a PIL Image",
            by simp [segProcessBody, hlk]⟩
        | int n =>
          exact ⟨PyErr.typeError "image must be a PIL Image",
            by simp [segProcessBody, hlk]⟩
        | str s =>
          exact ⟨PyErr.typeError "image must be a PIL Image",
            by simp [segProcessBody, hlk]⟩
        | list xs =>
          exact ⟨PyErr.typeError "image must be a PIL Image",
            by simp [segProcessBody, hlk]⟩
        | dict es2 =>
          exact ⟨PyErr.typeError "image must be a PIL Image",
            by simp [segProcessBody, hlk]⟩
    | none => exact ⟨_, rfl⟩
    | bool b => exact ⟨_, rfl⟩
    | int n => exact ⟨_, rfl⟩
    | str s => exact ⟨_, rfl⟩
    | list xs => exact ⟨_, rfl⟩
    | image img => exact ⟨_, rfl⟩
  refine ⟨hbody, ?_, ?_⟩
  · intro h1 h2
    obtain ⟨e, he⟩ := hbody
    simp [segProcessDecorated, validate_input, h1, h2, log_operation,
      error_handler, segBodyOnArgs, he]
  · rintro (h | h) <;> simp [segProcessDecorated, validate_input, h]

/-- Witness for the amended claim C1 at the concrete invalid input 5 (an
integer, not a mapping). -/
theorem claim_C1_witness :
    (∃ e, segProcessBody netC1 (PyVal.int 5) = Except.error e) ∧
    (truthy (PyVal.int 5) = true → blankStr (PyVal.int 5) = false →
      (segProcessDecorated netC1 (PyVal.int 1) (PyVal.int 5)).1
        = Except.ok Option.none) ∧
    (truthy (PyVal.int 5) = false ∨ blankStr (PyVal.int 5) = true →
      (segProcessDecorated netC1 (PyVal.int 1) (PyVal.int 5)).1
        = Except.error (PyErr.valueError "Input cannot be empty")) :=
  claim_C1_invalid_input_swallowed netC1 (PyVal.int 1) (PyVal.int 5)
    (by rintro ⟨es, i, h, _⟩; exact PyVal.noConfusion h)

/-- Counterexample to claim C9 as stated: with the cache key built from a
hash of the stringified arguments (the hash is an external, per-process
randomized primitive, here instantiated at a colliding function), a
second call whose argument string "bc" differs from the only previously
seen one "a" does NOT invoke the wrapped function: it hits the colliding
key, leaves the invocation count at 1, and returns the stale cached value
1 although the wrapped function would return 2.  The module docstring
itself warns that hash-based cache keys may collide (decorators.py line
144). -/
theorem claim_C9_counterexample :
    ("a" : String) ≠ "bc" ∧
    (cache_result "f" (fun _ => (0 : ℤ)) String.length
        (cache_result "f" (fun _ => (0 : ℤ)) String.length
          (⟨[], 0⟩ : CacheState ℕ) "a").2 "bc").2.calls
      = (cache_result "f" (fun _ => (0 : ℤ)) String.length
          (⟨[], 0⟩ : CacheState ℕ) "a").2.calls ∧
    (cache_result "f" (fun _ => (0 : ℤ)) String.length
        (cache_result "f" (fun _ => (0 : ℤ)) String.length
          (⟨[], 0⟩ : CacheState ℕ) "a").2 "bc").1 = 1 ∧
    String.length "bc" = 2 := by
  refine ⟨by decide, by decide, by decide, by decide⟩

/-- Claim C9 (amended): a second call whose arguments stringify
identically to a previous call returns the stored output without invoking
the wrapped function again; and a call whose cache key — the function
name plus the hash of the stringified arguments — differs from every
previously stored key invokes the wrapped function (a call whose
arguments differ but whose key collides with a stored one instead returns
the stale stored value). -/
theorem claim_C9_cache_amended {α : Type} (fname : String) (h : String → ℤ)
    (f : String → α) (st : CacheState α) (s1 s2 : String) :
    ((cache_result fname h f (cache_result fname h f st s1).2 s1).1
        = (cache_result fname h f st s1).1 ∧
      (cache_result fname h f (cache_result fname h f st s1).2 s1).2.calls
        = (cache_result fname h f st s1).2.calls) ∧
    (st.cache.lookup (cacheKey fname h s2) = Option.none →
      (cache_result fname h f st s2).1 = f s2 ∧
      (cache_result fname h f st s2).2.calls = st.calls + 1) := by
  constructor
  · cases hl : st.cache.lookup (cacheKey fname h s1) with
    | none =>
      constructor <;> simp [cache_result, hl, List.lookup]
    | some v =>
      constructor <;> simp [cache_result, hl]
  · intro hl
    constructor <;> simp [cache_result, hl]

/-- Witness for the amended claim C9: a first call on an empty cache
invokes the wrapped function and counts one invocation. -/
theorem claim_C9_witness :
    (cache_result "f" (fun _ => (0 : ℤ)) String.length
      (⟨[], 0⟩ : CacheState ℕ) "b").1 = String.length "b" ∧
    (cache_result "f" (fun _ => (0 : ℤ)) String.length
      (⟨[], 0⟩ : CacheState ℕ) "b").2.calls
      = (⟨[], 0⟩ : CacheState ℕ).calls + 1 :=
  (claim_C9_cache_amended "f" (fun _ => 0) String.length ⟨[], 0⟩ "a" "b").2 rfl
